import Mathlib

/-!
# Verification of the Expuesto control-room process supervisor

Shallow embedding of `src/positronic-brain/src-tauri/src/controlroom/`
(`process_manager.rs`, `runner_manager.rs`, `types.rs`, `mod.rs`).

Rust strings are modelled as `List Char`; `str::trim` /
`str::to_lowercase` / `contains` / `starts_with` become the
corresponding list operations (`Char.toLower` covers the ASCII case,
which is all the classifier's patterns use).  OS effects (spawning,
`try_wait`, kill/wait, the oneshot stop command) are passed in as
explicit oracle values, and each lifecycle operation returns, besides
its result and the successor state, the list of process handles it
spawned.
-/

namespace ControlRoom

/-- Rust `haystack.contains(needle)` on char lists. -/
def listContains (hay pat : List Char) : Bool :=
  match hay with
  | [] => pat.isEmpty
  | _ :: t => pat.isPrefixOf hay || listContains t pat

/-- Rust `str::trim` (drop whitespace at both ends). -/
def trimChars (s : List Char) : List Char :=
  ((s.dropWhile Char.isWhitespace).reverse.dropWhile Char.isWhitespace).reverse

/-- Rust `str::to_lowercase` (ASCII case). -/
def lowerChars (s : List Char) : List Char :=
  s.map Char.toLower

/-- `line.trim().to_lowercase()` as computed at the top of `detect_level`. -/
def lowerTrim (line : String) : List Char :=
  lowerChars (trimChars line.toList)

def startsWith (s : List Char) (pat : String) : Bool :=
  pat.toList.isPrefixOf s

def containsSub (s : List Char) (pat : String) : Bool :=
  listContains s pat.toList

/-- `ControlRoomProcessManager::parse_embedded_level` (process_manager.rs:92). -/
def parse_embedded_level (lower : List Char) : Option String :=
  if containsSub lower "] error " || startsWith lower "error " || startsWith lower "error:" then
    some "error"
  else if containsSub lower "] warn " || containsSub lower "] warning "
      || startsWith lower "warn " || startsWith lower "warn:"
      || startsWith lower "warning " || startsWith lower "warning:" then
    some "warn"
  else if containsSub lower "] info " || startsWith lower "info " || startsWith lower "info:" then
    some "info"
  else
    none

/-- `ControlRoomProcessManager::looks_like_error` (process_manager.rs:116). -/
def looks_like_error (lower : List Char) : Bool :=
  startsWith lower "error:"
    || containsSub lower " error:"
    || containsSub lower "fatal:"
    || containsSub lower "panic"
    || containsSub lower "traceback"
    || containsSub lower "uncaught exception"
    || containsSub lower "exception:"
    || containsSub lower "errored out"
    || containsSub lower "failed to"
    || containsSub lower "spawn failed"
    || containsSub lower "connection refused"
    || containsSub lower "no such file or directory"
    || containsSub lower "permission denied"
    || containsSub lower "segmentation fault"
    || containsSub lower "out of memory"
    || containsSub lower "timed out"
    || containsSub lower " econnrefused"
    || containsSub lower " enoent"
    || containsSub lower " eacces"

/-- `ControlRoomProcessManager::looks_like_warning` (process_manager.rs:138). -/
def looks_like_warning (lower : List Char) : Bool :=
  startsWith lower "warn:"
    || startsWith lower "warning:"
    || containsSub lower " warning "
    || containsSub lower " deprecated"

/-- `ControlRoomProcessManager::is_known_informational_stderr` (process_manager.rs:145). -/
def is_known_informational_stderr (lower : List Char) : Bool :=
  (["ggml_", "main:", "srv ", "slot ", "llama_", "load_tensors:", "print_info:",
    "system info:", "system_info:", "common_init_from_params:", "load:", "build:",
    "prompt eval time", "eval time", "total time"].any fun p => startsWith lower p)
    || containsSub lower "http server is listening"
    || containsSub lower "model loaded"
    || containsSub lower "all slots are idle"

/-- `ControlRoomProcessManager::detect_level` (process_manager.rs:170). -/
def detect_level (line : String) (stream : String) : String :=
  let lower := lowerTrim line
  if lower.isEmpty then "info"
  else
    match parse_embedded_level lower with
    | some level => level
    | none =>
      if looks_like_error lower then "error"
      else if looks_like_warning lower then "warn"
      else if stream = "stderr" then
        if is_known_informational_stderr lower then "info" else "warn"
      else "info"

/-! ## Decidable equality for `Except` results -/

instance exceptDecEq {eps alpha : Type} [DecidableEq eps] [DecidableEq alpha] :
    DecidableEq (Except eps alpha)
  | .ok a, .ok b =>
    if h : a = b then .isTrue (by rw [h])
    else .isFalse (by intro he; cases he; exact h rfl)
  | .ok _, .error _ => .isFalse (by intro he; cases he)
  | .error _, .ok _ => .isFalse (by intro he; cases he)
  | .error e, .error f =>
    if h : e = f then .isTrue (by rw [h])
    else .isFalse (by intro he; cases he; exact h rfl)

/-! ## Data model (types.rs) -/

/-- `SafeCommandSpec` (types.rs:6); `env` modelled as an association list. -/
structure SafeCommandSpec where
  program : String
  args : List String
  cwd : Option String
  env : Option (List (String × String))
deriving DecidableEq

/-- `ServiceConfig` (types.rs:23); `health`/`log_sources` are irrelevant to the
lifecycle and modelled as opaque option fields. -/
structure ServiceConfig where
  id : String
  name : String
  tier : Option String
  cwd : Option String
  start : SafeCommandSpec
  stop : Option SafeCommandSpec
  restart : Option SafeCommandSpec
deriving DecidableEq

/-- `ServiceState` (types.rs:156). -/
inductive ServiceState where
  | running
  | stopped
  | error
  | starting
  | stopping
deriving DecidableEq

/-- `ServiceStatus` (types.rs:166). -/
structure ServiceStatus where
  serviceId : String
  state : ServiceState
  pid : Option Nat
  uptimeSec : Option Nat
  lastError : Option String
  correlationId : Option String
deriving DecidableEq

/-- `ServiceStatus::stopped` (types.rs:176). -/
def ServiceStatus.stopped (serviceId : String) : ServiceStatus :=
  { serviceId := serviceId, state := .stopped, pid := none, uptimeSec := none,
    lastError := none, correlationId := none }

/-- `ServiceLogEvent` (types.rs:190). -/
structure ServiceLogEvent where
  serviceId : String
  stream : String
  ts : Nat
  level : String
  line : String
  correlationId : Option String
deriving DecidableEq

/-- `ServiceRuntime` (process_manager.rs:16).  The child process handle is an
abstract token (`Nat`); the handle's OS behaviour enters through oracles. -/
structure ServiceRuntime where
  status : ServiceStatus
  child : Option Nat
  startedAt : Option Nat
  logs : List ServiceLogEvent
deriving DecidableEq

/-- `ServiceRuntime::new` (process_manager.rs:24). -/
def ServiceRuntime.new (serviceId : String) : ServiceRuntime :=
  { status := ServiceStatus.stopped serviceId, child := none, startedAt := none, logs := [] }

/-! ## Association-list model of the `HashMap`s -/

def alookup {α : Type} : List (String × α) → String → Option α
  | [], _ => none
  | (k', v) :: t, k => if k' = k then some v else alookup t k

def ainsert {α : Type} : List (String × α) → String → α → List (String × α)
  | [], k, v => [(k, v)]
  | (k', v') :: t, k, v => if k' = k then (k, v) :: t else (k', v') :: ainsert t k v

def aupdate {α : Type} : List (String × α) → String → (α → α) → List (String × α)
  | [], _, _ => []
  | (k', v') :: t, k, f => if k' = k then (k', f v') :: t else (k', v') :: aupdate t k f

/-- `entry(k).or_insert_with(init)` followed by a mutation `f` of the entry. -/
def aentryUpdate {α : Type} (m : List (String × α)) (k : String) (init : α) (f : α → α) :
    List (String × α) :=
  if (alookup m k).isSome then aupdate m k f else m ++ [(k, f init)]

/-! ## Manager state (process_manager.rs) -/

/-- The fields of `ControlRoomProcessManager` (process_manager.rs:35) plus the
per-service runtimes; both `HashMap`s become association lists. -/
structure MgrState where
  services : List (String × ServiceConfig)
  runtimes : List (String × ServiceRuntime)
  maxLogs : Nat
deriving DecidableEq

/-- `ControlRoomProcessManager::new` (process_manager.rs:42). -/
def MgrState.new (maxLogsPerService : Nat) : MgrState :=
  { services := [], runtimes := [], maxLogs := maxLogsPerService }

/-- `ControlRoomState::new` passes 5000 (mod.rs:30). -/
def defaultMaxLogs : Nat := 5000

/-- `ControlRoomProcessManager::set_services` (process_manager.rs:50). -/
def set_services (st : MgrState) (services : List ServiceConfig) : MgrState :=
  let serviceMap := services.foldl (fun m c => ainsert m c.id c) []
  let kept := st.runtimes.filter fun e => (alookup serviceMap e.1).isSome
  let runtimes := serviceMap.foldl
    (fun r e => if (alookup r e.1).isSome then r else r ++ [(e.1, ServiceRuntime.new e.1)])
    kept
  { st with services := serviceMap, runtimes := runtimes }

/-- Comparison key of `get_services`: the lowercased display name. -/
def nameKey (c : ServiceConfig) : List Char :=
  lowerChars c.name.toList

/-- Lexicographic `≤` on char lists (Rust `String::cmp` of the lowercased names,
ASCII case). -/
def charListLe : List Char → List Char → Bool
  | [], _ => true
  | _ :: _, [] => false
  | a :: as, b :: bs =>
    if a.toNat < b.toNat then true
    else if b.toNat < a.toNat then false
    else charListLe as bs

/-- `ControlRoomProcessManager::get_services` (process_manager.rs:70): collect the
configured definitions and sort by lowercased name. -/
def get_services (st : MgrState) : List ServiceConfig :=
  (st.services.map Prod.snd).mergeSort fun a b => charListLe (nameKey a) (nameKey b)

/-- `ControlRoomProcessManager::get_service` (process_manager.rs:77). -/
def get_service (st : MgrState) (serviceId : String) : Except String ServiceConfig :=
  match alookup st.services serviceId with
  | some c => .ok c
  | none => .error ("service not found: " ++ serviceId)

/-- The eviction loop of `append_log` (process_manager.rs:250):
`while logs.len() > max { logs.pop_front(); }`. -/
def evictFront {α : Type} (max : Nat) : List α → List α
  | [] => []
  | e :: rest => if rest.length + 1 > max then evictFront max rest else e :: rest

/-- `ControlRoomProcessManager::append_log` (process_manager.rs:246). -/
def append_log (st : MgrState) (event : ServiceLogEvent) : MgrState :=
  match alookup st.runtimes event.serviceId with
  | none => st
  | some _ =>
    { st with
      runtimes := aupdate st.runtimes event.serviceId fun rt =>
        { rt with logs := evictFront st.maxLogs (rt.logs ++ [event]) } }

/-- The runtime mutation performed by `mark_status` (process_manager.rs:260-266):
store the status and, when it is not `Running`, clear the start time and the
stored uptime. -/
def applyStatus (status : ServiceStatus) (rt : ServiceRuntime) : ServiceRuntime :=
  let rt := { rt with status := status }
  if rt.status.state ≠ ServiceState.running then
    { rt with startedAt := none, status := { rt.status with uptimeSec := none } }
  else rt

/-- `ControlRoomProcessManager::mark_status` (process_manager.rs:256); the event
emission is a fire-and-forget effect and is dropped. -/
def mark_status (st : MgrState) (status : ServiceStatus) : MgrState :=
  { st with
    runtimes := aentryUpdate st.runtimes status.serviceId
      (ServiceRuntime.new status.serviceId) (applyStatus status) }

/-! ## Oracles for OS effects -/

/-- Outcome of `child.try_wait()` on the tracked handle. -/
inductive TryWait where
  | exited (success : Bool) (code : Option Int)
  | stillRunning
  | failed (msg : String)
deriving DecidableEq

/-- Outcome of `command.spawn()`: a fresh handle token plus `child.id()`. -/
inductive SpawnOutcome where
  | ok (handle : Nat) (pid : Option Nat)
  | fail (msg : String)
deriving DecidableEq

/-- Rust `{:?}` rendering of the `Option<i32>` exit code. -/
def fmtExitCode : Option Int → String
  | some n => "Some(" ++ toString n ++ ")"
  | none => "None"

/-! ## Lifecycle operations (process_manager.rs) -/

/-- `ControlRoomProcessManager::refresh_status_if_needed` (process_manager.rs:351).
`w` is the `try_wait` outcome (consulted only when a child handle is tracked) and
`now` the current time in abstract seconds for the uptime refresh.
`refreshRuntime` is the runtime update performed on the three `try_wait`
outcomes (process_manager.rs:363-390). -/
def refreshRuntime (rt : ServiceRuntime) (w : TryWait) (now : Nat) : ServiceRuntime :=
  match w with
  | .exited success code =>
    { rt with
      child := none
      startedAt := none
      status := { rt.status with
        state := if success then .stopped else .error
        pid := none
        uptimeSec := none
        lastError := if success then none
          else some ("process exited with code " ++ fmtExitCode code) } }
  | .stillRunning =>
    { rt with
      status := { rt.status with
        state := .running
        uptimeSec := match rt.startedAt with
          | some started => some (now - started)
          | none => rt.status.uptimeSec } }
  | .failed msg =>
    { rt with
      status := { rt.status with state := .error, lastError := some msg } }

def refresh_status_if_needed (st : MgrState) (serviceId : String) (w : TryWait) (now : Nat) :
    Option ServiceStatus × MgrState :=
  match alookup st.runtimes serviceId with
  | none => (none, st)
  | some rt =>
    match rt.child with
    | none => (some rt.status, st)
    | some _ =>
      let rt' := refreshRuntime rt w now
      (some rt'.status, { st with runtimes := aupdate st.runtimes serviceId fun _ => rt' })

/-- The `Starting` status built inside `start_service` (process_manager.rs:405). -/
def startingStatus (serviceId : String) : ServiceStatus :=
  { serviceId := serviceId, state := .starting, pid := none, uptimeSec := none,
    lastError := none, correlationId := some ("service:" ++ serviceId) }

/-- The `Running` status recorded on spawn success (process_manager.rs:435/454). -/
def runningStatus (serviceId : String) (pid : Option Nat) : ServiceStatus :=
  { serviceId := serviceId, state := .running, pid := pid, uptimeSec := some 0,
    lastError := none, correlationId := some ("service:" ++ serviceId) }

/-- The `Stopping` status built inside `stop_service` (process_manager.rs:469). -/
def stoppingStatus (serviceId : String) : ServiceStatus :=
  { serviceId := serviceId, state := .stopping, pid := none, uptimeSec := none,
    lastError := none, correlationId := some ("service:" ++ serviceId) }

/-- The final `Stopped` status of `stop_service` (process_manager.rs:501). -/
def stoppedStatus (serviceId : String) : ServiceStatus :=
  { serviceId := serviceId, state := .stopped, pid := none, uptimeSec := none,
    lastError := none, correlationId := some ("service:" ++ serviceId) }

/-- The validation in `build_command` (process_manager.rs:205): the program must
be non-empty after trimming. -/
def programInvalid (spec : SafeCommandSpec) : Bool :=
  trimChars spec.program.toList = []

/-- The spawn phase of `start_service` (process_manager.rs:405-463): mark
`Starting`, validate and spawn, record the handle and running status.  Returns
the call result, the successor state, and the handles spawned. -/
def start_spawn_phase (st : MgrState) (service : ServiceConfig) (serviceId : String)
    (now : Nat) (sp : SpawnOutcome) :
    Except String ServiceStatus × MgrState × List Nat :=
  let st := mark_status st (startingStatus serviceId)
  if programInvalid service.start then
    (.error "command program cannot be empty", st, [])
  else
    match sp with
    | .fail e =>
      (.error ("failed to spawn service " ++ service.name ++ ": " ++ e), st, [])
    | .ok handle pid =>
      let status := runningStatus serviceId pid
      let st := { st with
        runtimes := aentryUpdate st.runtimes serviceId (ServiceRuntime.new serviceId)
          fun rt => { rt with child := some handle, startedAt := some now, status := status } }
      (.ok status, st, [handle])

/-- `ControlRoomProcessManager::start_service` (process_manager.rs:396). -/
def start_service (st : MgrState) (serviceId : String) (w : TryWait) (now : Nat)
    (sp : SpawnOutcome) :
    Except String ServiceStatus × MgrState × List Nat :=
  match get_service st serviceId with
  | .error e => (.error e, st, [])
  | .ok service =>
    let (refreshed, st1) := refresh_status_if_needed st serviceId w now
    match refreshed with
    | some status =>
      if status.state = .running then (.ok status, st1, [])
      else start_spawn_phase st1 service serviceId now sp
    | none => start_spawn_phase st1 service serviceId now sp

/-- The take-the-child step of `stop_service` (process_manager.rs:488-493):
`runtimes.get_mut(id).and_then(|rt| rt.child.take())` clears the stored handle. -/
def takeChild (st : MgrState) (serviceId : String) : MgrState :=
  match alookup st.runtimes serviceId with
  | some _ => { st with
      runtimes := aupdate st.runtimes serviceId fun rt => { rt with child := none } }
  | none => st

/-- `ControlRoomProcessManager::stop_service` (process_manager.rs:466).
`oneshotRes` is the outcome of the optional stop command (its failure is only
reported, never propagated), `killRes` and `waitTimedOut` the outcomes of
`start_kill` and the 4-second bounded wait (both discarded by `let _ =`). -/
def stop_service (st : MgrState) (serviceId : String)
    (oneshotRes : Except String Unit) (killRes : Except String Unit)
    (waitTimedOut : Bool) :
    Except String ServiceStatus × MgrState :=
  match get_service st serviceId with
  | .error e => (.error e, st)
  | .ok service =>
    let st := mark_status st (stoppingStatus serviceId)
    let _ := match service.stop with
      | some _ => oneshotRes
      | none => .ok ()
    let st := takeChild st serviceId
    let _ := killRes
    let _ := waitTimedOut
    let status := stoppedStatus serviceId
    (.ok status, mark_status st status)

/-- `ControlRoomProcessManager::restart_service` (process_manager.rs:514): stop
(result discarded) then start. -/
def restart_service (st : MgrState) (serviceId : String)
    (oneshotRes : Except String Unit) (killRes : Except String Unit) (waitTimedOut : Bool)
    (w : TryWait) (now : Nat) (sp : SpawnOutcome) :
    Except String ServiceStatus × MgrState × List Nat :=
  let (_, st1) := stop_service st serviceId oneshotRes killRes waitTimedOut
  start_service st1 serviceId w now sp

/-- `ControlRoomProcessManager::service_status` (process_manager.rs:519). -/
def service_status (st : MgrState) (serviceId : String) (w : TryWait) (now : Nat) :
    Except String ServiceStatus × MgrState :=
  match get_service st serviceId with
  | .error e => (.error e, st)
  | .ok _ =>
    let (refreshed, st1) := refresh_status_if_needed st serviceId w now
    match refreshed with
    | some status => (.ok status, st1)
    | none => (.ok (ServiceStatus.stopped serviceId), st1)

/-- `ControlRoomProcessManager::clear_logs` (process_manager.rs:539). -/
def clear_logs (st : MgrState) (serviceId : String) : Except String Bool × MgrState :=
  match alookup st.runtimes serviceId with
  | none => (.error ("service runtime not found: " ++ serviceId), st)
  | some _ =>
    (.ok true, { st with runtimes := aupdate st.runtimes serviceId fun rt => { rt with logs := [] } })

/-- `ControlRoomProcessManager::service_logs` (process_manager.rs:548). -/
def service_logs (st : MgrState) (serviceId : String) (limit : Option Nat) :
    Except String (List ServiceLogEvent) :=
  match alookup st.runtimes serviceId with
  | none => .error ("service runtime not found: " ++ serviceId)
  | some rt =>
    let max := Nat.max (limit.getD st.maxLogs) 1
    let len := rt.logs.length
    let start := len - max
    .ok (rt.logs.drop start)

/-! ## Log export (process_manager.rs:563)

The filesystem is modelled as a set of directories and files keyed by path
segments; `tokio::fs::create_dir_all` adds every ancestor of the parent and
`tokio::fs::write` stores the joined content.  Path resolution against the
process working directory (for relative paths) is an OS effect outside the
model: paths are given already resolved. -/

structure FS where
  dirs : List (List String)
  files : List (List String × String)
deriving DecidableEq

/-- All non-empty ancestor paths of a segment path. -/
def ancestors : List String → List (List String)
  | [] => []
  | a :: t => [a] :: (ancestors t).map (a :: ·)

def createDirAll (fs : FS) (p : List String) : FS :=
  { fs with dirs := fs.dirs ++ ancestors p }

def writeFile (fs : FS) (p : List String) (content : String) : FS :=
  { fs with files := (p, content) :: fs.files }

/-- Most recent write wins. -/
def readFile (fs : FS) (p : List String) : Option String :=
  (fs.files.find? fun e => e.1 = p).map Prod.snd

/-- The per-entry line format of `export_logs` (process_manager.rs:573):
`[ts] stream LEVEL line`. -/
def formatLogLine (e : ServiceLogEvent) : String :=
  "[" ++ toString e.ts ++ "] " ++ e.stream ++ " " ++ String.mk (e.level.toList.map Char.toUpper)
    ++ " " ++ e.line

/-- `ControlRoomProcessManager::export_logs` (process_manager.rs:563): serialize
the full buffer one line per entry, create the target's parent directories, and
write the joined lines; unknown service ids fail. -/
def export_logs (st : MgrState) (serviceId : String) (targetPath : List String) (fs : FS) :
    Except String FS :=
  match alookup st.runtimes serviceId with
  | none => .error ("service runtime not found: " ++ serviceId)
  | some rt =>
    let lines := rt.logs.map formatLogLine
    let fs := createDirAll fs targetPath.dropLast
    .ok (writeFile fs targetPath (String.intercalate "\n" lines))

/-! ## Runner manager (runner_manager.rs) -/

/-- The `runs` map of `RunnerManager` (runner_manager.rs:22): run id to the
abstract child handle. -/
structure RunnerState where
  runs : List (String × Nat)
deriving DecidableEq

/-- `RunnerManager::cancel` (runner_manager.rs:158): unknown ids yield
`Ok(false)`; tracked ids get a best-effort kill and bounded 3-second wait whose
outcome (`waitCompleted`) is discarded, yielding `Ok(true)`.  The map itself is
not modified (only the exit watcher removes runs). -/
def cancel (st : RunnerState) (runId : String) (waitCompleted : Bool) :
    Except String Bool × RunnerState :=
  match alookup st.runs runId with
  | some _ =>
    let _ := waitCompleted
    (.ok true, st)
  | none => (.ok false, st)

/-! ## Concrete instances used to witness the theorems -/

def sampleSpec : SafeCommandSpec :=
  { program := "sleep", args := ["5"], cwd := none, env := none }

def sampleCfg : ServiceConfig :=
  { id := "api", name := "API", tier := none, cwd := none,
    start := sampleSpec, stop := none, restart := none }

def badCfg : ServiceConfig :=
  { id := "bad", name := "Bad", tier := none, cwd := none,
    start := { program := "run", args := [], cwd := none, env := none },
    stop := none, restart := none }

/-- A definition whose start command is invalid: the program is blank after
trimming, so `build_command` rejects it. -/
def blankCfg : ServiceConfig :=
  { id := "blank", name := "Blank", tier := none, cwd := none,
    start := { program := " ", args := [], cwd := none, env := none },
    stop := none, restart := none }

def sampleState : MgrState := set_services (MgrState.new 5000) [sampleCfg]

def stC2 : MgrState := set_services (MgrState.new 5000) [badCfg]

def stInvalid : MgrState := set_services (MgrState.new 5000) [blankCfg]

def ev0 : ServiceLogEvent :=
  { serviceId := "api", stream := "stdout", ts := 1, level := "info",
    line := "hello", correlationId := none }

def ev1 : ServiceLogEvent :=
  { serviceId := "api", stream := "stderr", ts := 2, level := "warn",
    line := "careful", correlationId := none }

def ev2 : ServiceLogEvent :=
  { serviceId := "api", stream := "stdout", ts := 3, level := "error",
    line := "boom", correlationId := none }

def stC6 : MgrState :=
  { services := [], runtimes := [("api", { ServiceRuntime.new "api" with logs := [ev0] })],
    maxLogs := 5000 }

def stC9 : MgrState :=
  { services := [],
    runtimes := [("api", { ServiceRuntime.new "api" with logs := [ev0, ev1] })],
    maxLogs := 5000 }

def fs0 : FS := { dirs := [], files := [] }

def rsSample : RunnerState := { runs := [("run-1-1", 7)] }

/-- State after a first successful start of `"api"` (handle 7, pid 42, time 0). -/
def stAfterStart : MgrState :=
  (start_service sampleState "api" .stillRunning 0 (.ok 7 (some 42))).2.1

/-- The reconciled `Running` status of `"api"` at time 5 after that start. -/
def runningApi : ServiceStatus :=
  { serviceId := "api", state := .running, pid := some 42, uptimeSec := some 5,
    lastError := none, correlationId := some ("service:" ++ "api") }

/-- The filesystem produced by the C9 export scenario. -/
def fsC9 : FS :=
  writeFile (createDirAll fs0 ["tmp"]) ["tmp", "x.log"]
    (String.intercalate "\n" (List.map formatLogLine [ev0, ev1]))

/-! ## Shared lemmas about the association-list operations -/

theorem alookup_append_of_none {α : Type} (m l : List (String × α)) (k : String)
    (h : alookup m k = none) : alookup (m ++ l) k = alookup l k := by
  induction m with
  | nil => rfl
  | cons e t ih =>
    obtain ⟨k', v⟩ := e
    by_cases hk : k' = k
    · simp [alookup, hk] at h
    · simp only [alookup, hk, if_false, List.cons_append] at h ⊢
      exact ih h

theorem alookup_aupdate_self {α : Type} (m : List (String × α)) (k : String) (f : α → α) :
    alookup (aupdate m k f) k = (alookup m k).map f := by
  induction m with
  | nil => simp [alookup, aupdate]
  | cons e t ih =>
    obtain ⟨k', v⟩ := e
    by_cases hk : k' = k
    · simp [alookup, aupdate, hk]
    · simp [alookup, aupdate, hk, ih]

theorem alookup_aupdate_other {α : Type} (m : List (String × α)) (k j : String) (f : α → α)
    (h : j ≠ k) : alookup (aupdate m k f) j = alookup m j := by
  induction m with
  | nil => simp [aupdate]
  | cons e t ih =>
    obtain ⟨k', v⟩ := e
    by_cases hk : k' = k
    · subst hk
      have hj' : ¬ (k' = j) := fun hj => h hj.symm
      simp [alookup, aupdate, hj']
    · by_cases hj : k' = j
      · subst hj
        simp [alookup, aupdate, hk]
      · simp [alookup, aupdate, hk, hj, ih]

theorem alookup_aentryUpdate_self {α : Type} (m : List (String × α)) (k : String)
    (init : α) (f : α → α) :
    alookup (aentryUpdate m k init f) k = some (f ((alookup m k).getD init)) := by
  unfold aentryUpdate
  cases h : alookup m k with
  | some v => simp [h, alookup_aupdate_self]
  | none =>
    have h2 : alookup (m ++ [(k, f init)]) k = alookup [(k, f init)] k :=
      alookup_append_of_none m [(k, f init)] k h
    simp [h, h2, alookup]

/-! ## Equation lemmas for the manager operations -/

theorem get_service_none (st : MgrState) (serviceId : String)
    (h : alookup st.services serviceId = none) :
    get_service st serviceId = .error ("service not found: " ++ serviceId) := by
  simp [get_service, h]

theorem get_service_some (st : MgrState) (serviceId : String) (cfg : ServiceConfig)
    (h : alookup st.services serviceId = some cfg) :
    get_service st serviceId = .ok cfg := by
  simp [get_service, h]

theorem refresh_eq_missing (st : MgrState) (serviceId : String) (w : TryWait) (now : Nat)
    (h : alookup st.runtimes serviceId = none) :
    refresh_status_if_needed st serviceId w now = (none, st) := by
  simp [refresh_status_if_needed, h]

theorem refresh_eq_nochild (st : MgrState) (serviceId : String) (w : TryWait) (now : Nat)
    (rt : ServiceRuntime) (h : alookup st.runtimes serviceId = some rt)
    (hc : rt.child = none) :
    refresh_status_if_needed st serviceId w now = (some rt.status, st) := by
  simp only [refresh_status_if_needed, h]
  rw [hc]

theorem refresh_eq_child (st : MgrState) (serviceId : String) (w : TryWait) (now : Nat)
    (rt : ServiceRuntime) (c : Nat) (h : alookup st.runtimes serviceId = some rt)
    (hc : rt.child = some c) :
    refresh_status_if_needed st serviceId w now
      = (some (refreshRuntime rt w now).status,
         { st with runtimes := aupdate st.runtimes serviceId fun _ => refreshRuntime rt w now }) := by
  simp only [refresh_status_if_needed, h]
  rw [hc]

theorem mark_status_lookup (st : MgrState) (status : ServiceStatus) :
    alookup (mark_status st status).runtimes status.serviceId
      = some (applyStatus status ((alookup st.runtimes status.serviceId).getD
          (ServiceRuntime.new status.serviceId))) := by
  simp [mark_status, alookup_aentryUpdate_self]

theorem mark_status_services (st : MgrState) (status : ServiceStatus) :
    (mark_status st status).services = st.services := rfl

theorem refresh_services (st : MgrState) (serviceId : String) (w : TryWait) (now : Nat) :
    (refresh_status_if_needed st serviceId w now).2.services = st.services := by
  unfold refresh_status_if_needed
  cases h0 : alookup st.runtimes serviceId with
  | none => rfl
  | some rt =>
    obtain ⟨sts, ch, sa, lg⟩ := rt
    cases ch with
    | none => rfl
    | some c => rfl

theorem refresh_maxLogs (st : MgrState) (serviceId : String) (w : TryWait) (now : Nat) :
    (refresh_status_if_needed st serviceId w now).2.maxLogs = st.maxLogs := by
  unfold refresh_status_if_needed
  cases h0 : alookup st.runtimes serviceId with
  | none => rfl
  | some rt =>
    obtain ⟨sts, ch, sa, lg⟩ := rt
    cases ch with
    | none => rfl
    | some c => rfl

theorem refresh_lookup (st : MgrState) (serviceId : String) (w : TryWait) (now : Nat)
    (status : ServiceStatus)
    (h : (refresh_status_if_needed st serviceId w now).1 = some status) :
    ∃ rt', alookup (refresh_status_if_needed st serviceId w now).2.runtimes serviceId
        = some rt' ∧ rt'.status = status := by
  cases h0 : alookup st.runtimes serviceId with
  | none => rw [refresh_eq_missing st serviceId w now h0] at h; simp at h
  | some rt =>
    cases hc : rt.child with
    | none =>
      rw [refresh_eq_nochild st serviceId w now rt h0 hc] at h ⊢
      simp only [Option.some.injEq] at h
      exact ⟨rt, h0, h⟩
    | some c =>
      rw [refresh_eq_child st serviceId w now rt c h0 hc] at h ⊢
      simp only [Option.some.injEq] at h
      refine ⟨refreshRuntime rt w now, ?_, h⟩
      simp [alookup_aupdate_self, h0]


theorem takeChild_lookup (st : MgrState) (serviceId : String) :
    alookup (takeChild st serviceId).runtimes serviceId
      = (alookup st.runtimes serviceId).map fun rt => { rt with child := none } := by
  unfold takeChild
  cases h : alookup st.runtimes serviceId with
  | none => simp [h]
  | some rt => simp [alookup_aupdate_self, h]

theorem takeChild_services (st : MgrState) (serviceId : String) :
    (takeChild st serviceId).services = st.services := by
  unfold takeChild
  cases h : alookup st.runtimes serviceId <;> rfl

theorem stop_service_eq (st : MgrState) (serviceId : String) (cfg : ServiceConfig)
    (oneshotRes killRes : Except String Unit) (waitTimedOut : Bool)
    (h : alookup st.services serviceId = some cfg) :
    stop_service st serviceId oneshotRes killRes waitTimedOut
      = (.ok (stoppedStatus serviceId),
         mark_status (takeChild (mark_status st (stoppingStatus serviceId)) serviceId)
           (stoppedStatus serviceId)) := by
  have hg := get_service_some st serviceId cfg h
  simp [stop_service, hg]

/-- C3: for every defined service, `stop_service` unconditionally returns
`Ok` with state `Stopped`, absent pid and absent uptime, and leaves the
tracked runtime `Stopped` with no child handle — for every outcome of the
optional stop command and of the kill/bounded-wait. -/
theorem stop_service_unconditionally_stopped (st : MgrState) (serviceId : String)
    (cfg : ServiceConfig) (oneshotRes killRes : Except String Unit) (waitTimedOut : Bool)
    (h : alookup st.services serviceId = some cfg) :
    (stop_service st serviceId oneshotRes killRes waitTimedOut).1
        = .ok (stoppedStatus serviceId)
    ∧ (stoppedStatus serviceId).state = .stopped
    ∧ (stoppedStatus serviceId).pid = none
    ∧ (stoppedStatus serviceId).uptimeSec = none
    ∧ ∃ rt, alookup (stop_service st serviceId oneshotRes killRes waitTimedOut).2.runtimes
          serviceId = some rt
        ∧ rt.status = stoppedStatus serviceId ∧ rt.child = none := by
  rw [stop_service_eq st serviceId cfg oneshotRes killRes waitTimedOut h]
  refine ⟨rfl, rfl, rfl, rfl, ?_⟩
  have h3 := mark_status_lookup (takeChild (mark_status st (stoppingStatus serviceId)) serviceId)
    (stoppedStatus serviceId)
  have hsid : (stoppedStatus serviceId).serviceId = serviceId := rfl
  rw [hsid] at h3
  refine ⟨_, h3, ?_, ?_⟩
  · simp [applyStatus, stoppedStatus]
  · have h2 := takeChild_lookup (mark_status st (stoppingStatus serviceId)) serviceId
    cases h4 : alookup (takeChild (mark_status st (stoppingStatus serviceId)) serviceId).runtimes
        serviceId with
    | none => simp [h4, applyStatus, stoppedStatus, ServiceRuntime.new]
    | some rt0 =>
      rw [h4] at h2
      cases h5 : alookup (mark_status st (stoppingStatus serviceId)).runtimes serviceId with
      | none => rw [h5] at h2; simp at h2
      | some rt1 =>
        rw [h5] at h2
        simp only [Option.map_some'] at h2
        rw [Option.some.injEq] at h2
        rw [h2]
        simp [applyStatus, stoppedStatus]


theorem stop_service_unconditionally_stopped_witness :
    (stop_service sampleState "api" (.ok ()) (.ok ()) false).1 = .ok (stoppedStatus "api")
    ∧ (stoppedStatus "api").state = .stopped
    ∧ (stoppedStatus "api").pid = none
    ∧ (stoppedStatus "api").uptimeSec = none
    ∧ ∃ rt, alookup (stop_service sampleState "api" (.ok ()) (.ok ()) false).2.runtimes "api"
          = some rt ∧ rt.status = stoppedStatus "api" ∧ rt.child = none :=
  stop_service_unconditionally_stopped sampleState "api" sampleCfg (.ok ()) (.ok ()) false
    (by decide)

/-- C7: for every service id with no definition, each lifecycle operation
(`start_service`, `stop_service`, `restart_service`, `service_status`) fails
with the `service not found` error. -/
theorem unknown_service_lifecycle_not_found (st : MgrState) (serviceId : String)
    (w : TryWait) (now : Nat) (sp : SpawnOutcome)
    (oneshotRes killRes : Except String Unit) (waitTimedOut : Bool)
    (h : alookup st.services serviceId = none) :
    (start_service st serviceId w now sp).1 = .error ("service not found: " ++ serviceId)
    ∧ (stop_service st serviceId oneshotRes killRes waitTimedOut).1
        = .error ("service not found: " ++ serviceId)
    ∧ (restart_service st serviceId oneshotRes killRes waitTimedOut w now sp).1
        = .error ("service not found: " ++ serviceId)
    ∧ (service_status st serviceId w now).1 = .error ("service not found: " ++ serviceId) := by
  have hg := get_service_none st serviceId h
  refine ⟨?_, ?_, ?_, ?_⟩ <;>
    simp [start_service, stop_service, restart_service, service_status, hg]

theorem unknown_service_lifecycle_not_found_witness :
    (start_service (MgrState.new 5000) "ghost" .stillRunning 0 (.ok 1 none)).1
        = .error ("service not found: " ++ "ghost")
    ∧ (stop_service (MgrState.new 5000) "ghost" (.ok ()) (.ok ()) false).1
        = .error ("service not found: " ++ "ghost")
    ∧ (restart_service (MgrState.new 5000) "ghost" (.ok ()) (.ok ()) false .stillRunning 0
        (.ok 1 none)).1 = .error ("service not found: " ++ "ghost")
    ∧ (service_status (MgrState.new 5000) "ghost" .stillRunning 0).1
        = .error ("service not found: " ++ "ghost") :=
  unknown_service_lifecycle_not_found (MgrState.new 5000) "ghost" .stillRunning 0 (.ok 1 none)
    (.ok ()) (.ok ()) false (by decide)

/-- C8: `cancel` on an untracked run id returns `Ok false` — not an error —
and on a tracked run id returns `Ok true` regardless of whether the bounded
3-second wait completed; in both cases the tracked state is unchanged. -/
theorem cancel_unknown_false_known_true (st : RunnerState) (runId : String)
    (waitCompleted : Bool) :
    cancel st runId waitCompleted
      = ((if (alookup st.runs runId).isSome then .ok true else .ok false), st) := by
  unfold cancel
  cases h : alookup st.runs runId <;> simp [h]


/-- C5: `detect_level` evaluates the precedence order on the lowercase-trimmed
line — empty line is `info`; explicit embedded level markers win over the
generic heuristics; generic error indicators give `error`; generic warning
indicators give `warn`; the stderr allow-list of known-benign prefixes gives
`info`; otherwise stderr defaults to `warn` and stdout to `info` — including
the five concrete examples of the claim. -/
theorem detect_level_precedence :
    (∀ line stream : String, lowerTrim line = [] → detect_level line stream = "info")
    ∧ (∀ line stream lvl : String, parse_embedded_level (lowerTrim line) = some lvl →
        detect_level line stream = lvl)
    ∧ (∀ line stream : String, parse_embedded_level (lowerTrim line) = none →
        looks_like_error (lowerTrim line) = true → detect_level line stream = "error")
    ∧ (∀ line stream : String, parse_embedded_level (lowerTrim line) = none →
        looks_like_error (lowerTrim line) = false → looks_like_warning (lowerTrim line) = true →
        detect_level line stream = "warn")
    ∧ (∀ line : String, parse_embedded_level (lowerTrim line) = none →
        looks_like_error (lowerTrim line) = false → looks_like_warning (lowerTrim line) = false →
        is_known_informational_stderr (lowerTrim line) = true →
        detect_level line "stderr" = "info")
    ∧ (∀ line : String, lowerTrim line ≠ [] → parse_embedded_level (lowerTrim line) = none →
        looks_like_error (lowerTrim line) = false → looks_like_warning (lowerTrim line) = false →
        is_known_informational_stderr (lowerTrim line) = false →
        detect_level line "stderr" = "warn")
    ∧ (∀ line stream : String, stream ≠ "stderr" → parse_embedded_level (lowerTrim line) = none →
        looks_like_error (lowerTrim line) = false → looks_like_warning (lowerTrim line) = false →
        detect_level line stream = "info")
    ∧ detect_level "ERROR: connection refused" "stdout" = "error"
    ∧ detect_level "WARN: deprecated flag" "stdout" = "warn"
    ∧ detect_level "ggml_init: context" "stderr" = "info"
    ∧ detect_level "something happened" "stderr" = "warn"
    ∧ detect_level "hello world" "stdout" = "info" := by
  refine ⟨?_, ?_, ?_, ?_, ?_, ?_, ?_,
    by decide, by decide, by decide, by decide, by decide⟩
  · intro line stream h
    simp [detect_level, h]
  · intro line stream lvl h
    cases hl : lowerTrim line with
    | nil =>
      rw [hl, show parse_embedded_level [] = none from by decide] at h
      exact absurd h (by simp)
    | cons a t =>
      rw [hl] at h
      simp [detect_level, hl, h]
  · intro line stream h herr
    cases hl : lowerTrim line with
    | nil => rw [hl] at herr; exact absurd herr (by decide)
    | cons a t =>
      rw [hl] at h herr
      simp [detect_level, hl, h, herr]
  · intro line stream h herr hwarn
    cases hl : lowerTrim line with
    | nil => rw [hl] at hwarn; exact absurd hwarn (by decide)
    | cons a t =>
      rw [hl] at h herr hwarn
      simp [detect_level, hl, h, herr, hwarn]
  · intro line h herr hwarn hinfo
    cases hl : lowerTrim line with
    | nil => rw [hl] at hinfo; exact absurd hinfo (by decide)
    | cons a t =>
      rw [hl] at h herr hwarn hinfo
      simp [detect_level, hl, h, herr, hwarn, hinfo]
  · intro line hne h herr hwarn hinfo
    cases hl : lowerTrim line with
    | nil => exact absurd hl hne
    | cons a t =>
      rw [hl] at h herr hwarn hinfo
      simp [detect_level, hl, h, herr, hwarn, hinfo]
  · intro line stream hs h herr hwarn
    cases hl : lowerTrim line with
    | nil => simp [detect_level, hl]
    | cons a t =>
      rw [hl] at h herr hwarn
      simp [detect_level, hl, h, herr, hwarn, hs]

theorem detect_level_precedence_witness :
    detect_level "[2024] error x" "stdout" = "error"
    ∧ detect_level "fatal: x" "stdout" = "error"
    ∧ detect_level "use of deprecated y" "stdout" = "warn"
    ∧ detect_level "model loaded ok" "stderr" = "info"
    ∧ detect_level "mystery" "stderr" = "warn"
    ∧ detect_level "mystery" "stdout" = "info"
    ∧ detect_level " " "stderr" = "info" :=
  ⟨detect_level_precedence.2.1 "[2024] error x" "stdout" "error" (by decide),
   detect_level_precedence.2.2.1 "fatal: x" "stdout" (by decide) (by decide),
   detect_level_precedence.2.2.2.1 "use of deprecated y" "stdout" (by decide) (by decide)
     (by decide),
   detect_level_precedence.2.2.2.2.1 "model loaded ok" (by decide) (by decide) (by decide)
     (by decide),
   detect_level_precedence.2.2.2.2.2.1 "mystery" (by decide) (by decide) (by decide) (by decide)
     (by decide),
   detect_level_precedence.2.2.2.2.2.2.1 "mystery" "stdout" (by decide) (by decide) (by decide)
     (by decide),
   detect_level_precedence.1 " " "stderr" (by decide)⟩


theorem evictFront_eq_drop {α : Type} (max : Nat) (l : List α) :
    evictFront max l = l.drop (l.length - max) := by
  induction l with
  | nil => simp [evictFront]
  | cons e rest ih =>
    simp only [evictFront, List.length_cons]
    by_cases hgt : rest.length + 1 > max
    · rw [if_pos hgt, ih]
      have harith : rest.length + 1 - max = (rest.length - max) + 1 := by omega
      rw [harith, List.drop_succ_cons]
    · rw [if_neg hgt]
      have harith : rest.length + 1 - max = 0 := by omega
      rw [harith, List.drop_zero]

theorem length_evictFront {α : Type} (max : Nat) (l : List α) :
    (evictFront max l).length = min l.length max := by
  rw [evictFront_eq_drop, List.length_drop]
  rcases Nat.le_total l.length max with h | h
  · rw [min_eq_left h]
    omega
  · rw [min_eq_right h]
    omega

theorem append_log_maxLogs (st : MgrState) (ev : ServiceLogEvent) :
    (append_log st ev).maxLogs = st.maxLogs := by
  unfold append_log
  cases h : alookup st.runtimes ev.serviceId <;> rfl

theorem append_log_lookup (st : MgrState) (ev : ServiceLogEvent) (rt : ServiceRuntime)
    (h : alookup st.runtimes ev.serviceId = some rt) :
    alookup (append_log st ev).runtimes ev.serviceId
      = some { rt with logs := evictFront st.maxLogs (rt.logs ++ [ev]) } := by
  unfold append_log
  rw [h]
  simp [alookup_aupdate_self, h]

theorem foldl_append_log_lookup (evs : List ServiceLogEvent) (st : MgrState) (id : String)
    (rt : ServiceRuntime) (h : alookup st.runtimes id = some rt)
    (hall : ∀ e ∈ evs, e.serviceId = id) :
    alookup (evs.foldl append_log st).runtimes id
      = some { rt with
          logs := evs.foldl (fun l e => evictFront st.maxLogs (l ++ [e])) rt.logs } := by
  induction evs generalizing st rt with
  | nil => simpa using h
  | cons e rest ih =>
    have hid : e.serviceId = id := hall e (List.mem_cons_self e rest)
    have h1 : alookup (append_log st e).runtimes id
        = some { rt with logs := evictFront st.maxLogs (rt.logs ++ [e]) } := by
      rw [← hid] at h ⊢
      exact append_log_lookup st e rt h
    have hml := append_log_maxLogs st e
    have h2 := ih (append_log st e) { rt with logs := evictFront st.maxLogs (rt.logs ++ [e]) }
      h1 (fun x hx => hall x (List.mem_cons_of_mem e hx))
    rw [List.foldl_cons]
    rw [hml] at h2
    exact h2

theorem bigPush_eq {α : Type} (max : Nat) (evs : List α) :
    ∀ b : List α, b.length ≤ max →
      evs.foldl (fun l e => evictFront max (l ++ [e])) b
        = (b ++ evs).drop (b.length + evs.length - max) := by
  induction evs with
  | nil =>
    intro b hb
    have harith : b.length - max = 0 := by omega
    simp [harith]
  | cons e rest ih =>
    intro b hb
    rw [List.foldl_cons]
    have hev : evictFront max (b ++ [e]) = (b ++ [e]).drop (b.length + 1 - max) := by
      rw [evictFront_eq_drop]
      simp
    have hle : (evictFront max (b ++ [e])).length ≤ max := by
      rw [length_evictFront]
      exact min_le_right _ _
    rw [ih (evictFront max (b ++ [e])) hle, hev]
    have hk : b.length + 1 - max ≤ (b ++ [e]).length := by
      rw [List.length_append, List.length_cons, List.length_nil]
      omega
    rw [← List.drop_append_of_le_length hk, List.drop_drop]
    have hassoc : (b ++ [e]) ++ rest = b ++ e :: rest := by simp
    rw [hassoc]
    congr 1
    simp [List.length_drop]
    omega


/-- C4: after any sequence of appends the log buffer of a tracked service
holds at most the configured capacity of entries (5000 by default), and an
append to a full buffer evicts the oldest entry first: after capacity+1
insertions into a fresh buffer the retained entries are exactly the inserted
sequence minus its first element. -/
theorem log_buffer_bounded_fifo :
    (∀ (st : MgrState) (evs : List ServiceLogEvent) (id : String) (rt0 : ServiceRuntime),
      alookup st.runtimes id = some rt0 → rt0.logs.length ≤ st.maxLogs →
      (∀ e ∈ evs, e.serviceId = id) →
      ∀ rt', alookup (evs.foldl append_log st).runtimes id = some rt' →
        rt'.logs.length ≤ st.maxLogs)
    ∧ (∀ (maxLogs : Nat) (id : String) (evs : List ServiceLogEvent),
        (∀ e ∈ evs, e.serviceId = id) → evs.length = maxLogs + 1 →
        alookup ((evs.foldl append_log
            { services := [], runtimes := [(id, ServiceRuntime.new id)],
              maxLogs := maxLogs }) : MgrState).runtimes id
          = some { ServiceRuntime.new id with logs := evs.drop 1 })
    ∧ defaultMaxLogs = 5000 := by
  refine ⟨?_, ?_, rfl⟩
  · intro st evs id rt0 h0 hlen hall rt' h'
    rw [foldl_append_log_lookup evs st id rt0 h0 hall] at h'
    have hrt : rt' = { rt0 with
        logs := evs.foldl (fun l e => evictFront st.maxLogs (l ++ [e])) rt0.logs } := by
      exact (Option.some.injEq _ _ ▸ h').symm
    rw [hrt]
    simp only []
    rw [bigPush_eq st.maxLogs evs rt0.logs hlen, List.length_drop, List.length_append]
    omega
  · intro maxLogs id evs hall hlen
    have h0 : alookup ([(id, ServiceRuntime.new id)]) id = some (ServiceRuntime.new id) := by
      simp [alookup]
    have h1 := foldl_append_log_lookup evs
      { services := [], runtimes := [(id, ServiceRuntime.new id)], maxLogs := maxLogs }
      id (ServiceRuntime.new id) h0 hall
    rw [h1]
    have h2 : (ServiceRuntime.new id).logs = ([] : List ServiceLogEvent) := rfl
    rw [h2, bigPush_eq maxLogs evs [] (by simp)]
    simp [hlen]

theorem log_buffer_bounded_fifo_witness :
    alookup (([ev0, ev1, ev2].foldl append_log
        { services := [], runtimes := [("api", ServiceRuntime.new "api")],
          maxLogs := 2 }) : MgrState).runtimes "api"
      = some { ServiceRuntime.new "api" with logs := [ev1, ev2] }
    ∧ ({ ServiceRuntime.new "api" with logs := [ev1, ev2] } : ServiceRuntime).logs.length ≤ 2 := by
  have h1 := log_buffer_bounded_fifo.2.1 2 "api" [ev0, ev1, ev2] (by decide) (by decide)
  have h2 := log_buffer_bounded_fifo.1
    { services := [], runtimes := [("api", ServiceRuntime.new "api")], maxLogs := 2 }
    [ev0, ev1, ev2] "api" (ServiceRuntime.new "api") (by decide) (by decide) (by decide)
    { ServiceRuntime.new "api" with logs := [ev1, ev2] } (by exact h1)
  exact ⟨h1, h2⟩


/-- C6 counterexample: with an explicit limit of 0 the code clamps the limit to
1 and still returns one entry, not `min 0 bufferLength = 0` entries. -/
theorem service_logs_limit_zero_cex :
    service_logs stC6 "api" (some 0) = .ok [ev0]
    ∧ min 0 [ev0].length = 0
    ∧ [ev0].length ≠ 0 := by decide

/-- C6 (amended): `service_logs` returns the most recent
`min(max(limit, 1), bufferLength)` entries — the limit is clamped below by 1,
so `limit = 0` still returns one entry — as a suffix of the buffer in
chronological order; an absent limit defaults to the buffer capacity
(visible as `limit.getD st.maxLogs`). -/
theorem service_logs_most_recent (st : MgrState) (serviceId : String) (rt : ServiceRuntime)
    (limit : Option Nat) (h : alookup st.runtimes serviceId = some rt) :
    service_logs st serviceId limit
      = .ok (rt.logs.drop (rt.logs.length - Nat.max (limit.getD st.maxLogs) 1))
    ∧ (rt.logs.drop (rt.logs.length - Nat.max (limit.getD st.maxLogs) 1)).length
        = min (Nat.max (limit.getD st.maxLogs) 1) rt.logs.length
    ∧ List.IsSuffix (rt.logs.drop (rt.logs.length - Nat.max (limit.getD st.maxLogs) 1))
        rt.logs := by
  refine ⟨?_, ?_, ?_⟩
  · simp [service_logs, h]
  · rw [List.length_drop]
    rcases Nat.le_total (Nat.max (limit.getD st.maxLogs) 1) rt.logs.length with hle | hle
    · rw [min_eq_left hle]
      omega
    · rw [min_eq_right hle]
      omega
  · exact ⟨rt.logs.take (rt.logs.length - Nat.max (limit.getD st.maxLogs) 1),
      List.take_append_drop _ _⟩

theorem service_logs_most_recent_witness :
    service_logs stC6 "api" (some 0)
      = .ok ((ev0 :: []).drop ((ev0 :: []).length - Nat.max ((some 0).getD 5000) 1))
    ∧ ((ev0 :: []).drop ((ev0 :: []).length - Nat.max ((some 0).getD 5000) 1)).length
        = min (Nat.max ((some 0).getD 5000) 1) (ev0 :: []).length
    ∧ List.IsSuffix ((ev0 :: []).drop ((ev0 :: []).length - Nat.max ((some 0).getD 5000) 1))
        (ev0 :: []) :=
  service_logs_most_recent stC6 "api" { ServiceRuntime.new "api" with logs := [ev0] }
    (some 0) (by decide)


/-- C9: for a tracked service `export_logs` serializes the full buffer one
line per entry in the format `[ts] stream LEVEL line` (a two-entry buffer
yields exactly two lines joined by a single newline), creates the parent
directories of the target path, and writes the joined content; for an
untracked service it fails with an error. -/
theorem export_logs_format (st : MgrState) (serviceId : String) (rt : ServiceRuntime)
    (path : List String) (fs : FS) (h : alookup st.runtimes serviceId = some rt) :
    export_logs st serviceId path fs
      = .ok (writeFile (createDirAll fs path.dropLast) path
          (String.intercalate "\n" (rt.logs.map formatLogLine)))
    ∧ (∀ fs', export_logs st serviceId path fs = .ok fs' →
        readFile fs' path = some (String.intercalate "\n" (rt.logs.map formatLogLine))
        ∧ ∀ d ∈ ancestors path.dropLast, d ∈ fs'.dirs)
    ∧ (∀ e1 e2 : ServiceLogEvent, rt.logs = [e1, e2] →
        String.intercalate "\n" (rt.logs.map formatLogLine)
          = formatLogLine e1 ++ "\n" ++ formatLogLine e2)
    ∧ (rt.logs.map formatLogLine).length = rt.logs.length
    ∧ (∀ (st' : MgrState) (id' : String), alookup st'.runtimes id' = none →
        ∀ (path' : List String) (fs'' : FS),
          export_logs st' id' path' fs'' = .error ("service runtime not found: " ++ id')) := by
  have heq : export_logs st serviceId path fs
      = .ok (writeFile (createDirAll fs path.dropLast) path
          (String.intercalate "\n" (rt.logs.map formatLogLine))) := by
    simp [export_logs, h]
  refine ⟨heq, ?_, ?_, by simp, ?_⟩
  · intro fs' he
    rw [heq] at he
    have hfs : fs' = writeFile (createDirAll fs path.dropLast) path
        (String.intercalate "\n" (rt.logs.map formatLogLine)) := by
      injection he with he2
      exact he2.symm
    constructor
    · rw [hfs]
      simp [readFile, writeFile, List.find?]
    · intro d hd
      rw [hfs]
      simp only [writeFile, createDirAll]
      exact List.mem_append_right _ hd
  · intro e1 e2 hlog
    rw [hlog]
    rfl
  · intro st' id' h' path' fs''
    simp [export_logs, h']


theorem export_logs_format_witness :
    export_logs stC9 "api" ["tmp", "x.log"] fs0 = .ok fsC9
    ∧ readFile fsC9 ["tmp", "x.log"]
        = some (formatLogLine ev0 ++ "\n" ++ formatLogLine ev1)
    ∧ ["tmp"] ∈ fsC9.dirs
    ∧ export_logs (MgrState.new 5000) "ghost" ["tmp"] fs0
        = .error ("service runtime not found: " ++ "ghost") := by
  have h1 := export_logs_format stC9 "api"
    { ServiceRuntime.new "api" with logs := [ev0, ev1] } ["tmp", "x.log"] fs0 (by decide)
  refine ⟨h1.1, ?_, ?_, ?_⟩
  · exact (h1.2.1 fsC9 h1.1).1
  · exact (h1.2.1 fsC9 h1.1).2 ["tmp"] (by decide)
  · exact h1.2.2.2.2 (MgrState.new 5000) "ghost" (by decide) ["tmp"] fs0


theorem charListLe_total : ∀ a b : List Char, charListLe a b || charListLe b a := by
  intro a
  induction a with
  | nil => intro b; simp [charListLe]
  | cons x xs ih =>
    intro b
    cases b with
    | nil => simp [charListLe]
    | cons y ys =>
      simp only [charListLe]
      by_cases h1 : x.toNat < y.toNat
      · simp [h1]
      · by_cases h2 : y.toNat < x.toNat
        · simp [h1, h2]
        · simpa [h1, h2] using ih ys

theorem charListLe_trans : ∀ a b c : List Char,
    charListLe a b = true → charListLe b c = true → charListLe a c = true := by
  intro a
  induction a with
  | nil => intro b c _ _; simp [charListLe]
  | cons x xs ih =>
    intro b c hab hbc
    cases b with
    | nil => simp [charListLe] at hab
    | cons y ys =>
      cases c with
      | nil => simp [charListLe] at hbc
      | cons z zs =>
        simp only [charListLe] at hab hbc ⊢
        by_cases hxy : x.toNat < y.toNat
        · by_cases hyz : y.toNat < z.toNat
          · have hxz : x.toNat < z.toNat := by omega
            simp [hxz]
          · by_cases hzy : z.toNat < y.toNat
            · rw [if_neg hyz, if_pos hzy] at hbc
              exact absurd hbc (by simp)
            · have hxz : x.toNat < z.toNat := by omega
              simp [hxz]
        · by_cases hyx : y.toNat < x.toNat
          · rw [if_neg hxy, if_pos hyx] at hab
            exact absurd hab (by simp)
          · rw [if_neg hxy, if_neg hyx] at hab
            by_cases hyz : y.toNat < z.toNat
            · have hxz : x.toNat < z.toNat := by omega
              simp [hxz]
            · by_cases hzy : z.toNat < y.toNat
              · rw [if_neg hyz, if_pos hzy] at hbc
                exact absurd hbc (by simp)
              · rw [if_neg hyz, if_neg hzy] at hbc
                have hxz : ¬ x.toNat < z.toNat := by omega
                have hzx : ¬ z.toNat < x.toNat := by omega
                rw [if_neg hxz, if_neg hzx]
                exact ih ys zs hab hbc

/-- C10: `get_services` always returns the configured service definitions
sorted in ascending order of the lowercase of their display name, for every
input order handed to `set_services`, and the result is a permutation of the
stored definitions. -/
theorem get_services_sorted_by_lower_name (init : MgrState) (cfgs : List ServiceConfig) :
    (get_services (set_services init cfgs)).Pairwise
      (fun a b => charListLe (nameKey a) (nameKey b) = true)
    ∧ (get_services (set_services init cfgs)).Perm
        ((set_services init cfgs).services.map Prod.snd) := by
  constructor
  · exact @List.sorted_mergeSort ServiceConfig
      (fun a b => charListLe (nameKey a) (nameKey b))
      (fun a b c hab hbc => charListLe_trans _ _ _ hab hbc)
      (fun a b => charListLe_total _ _)
      ((set_services init cfgs).services.map Prod.snd)
  · exact List.mergeSort_perm _ _


theorem start_spawn_phase_invalid (st : MgrState) (cfg : ServiceConfig) (serviceId : String)
    (now : Nat) (sp : SpawnOutcome) (hv : programInvalid cfg.start = true) :
    start_spawn_phase st cfg serviceId now sp
      = (.error "command program cannot be empty",
         mark_status st (startingStatus serviceId), []) := by
  simp [start_spawn_phase, hv]

theorem start_spawn_phase_fail (st : MgrState) (cfg : ServiceConfig) (serviceId : String)
    (now : Nat) (msg : String) (hv : programInvalid cfg.start = false) :
    start_spawn_phase st cfg serviceId now (.fail msg)
      = (.error ("failed to spawn service " ++ cfg.name ++ ": " ++ msg),
         mark_status st (startingStatus serviceId), []) := by
  simp [start_spawn_phase, hv]

theorem start_spawn_phase_ok (st : MgrState) (cfg : ServiceConfig) (serviceId : String)
    (now : Nat) (handle : Nat) (pid : Option Nat) (hv : programInvalid cfg.start = false) :
    start_spawn_phase st cfg serviceId now (.ok handle pid)
      = (.ok (runningStatus serviceId pid),
         { mark_status st (startingStatus serviceId) with
           runtimes := aentryUpdate (mark_status st (startingStatus serviceId)).runtimes
             serviceId (ServiceRuntime.new serviceId)
             (fun rt =>
               { rt with
                 child := some handle, startedAt := some now,
                 status := runningStatus serviceId pid }) },
         [handle]) := by
  simp [start_spawn_phase, hv]

theorem start_spawn_phase_services (st : MgrState) (cfg : ServiceConfig) (serviceId : String)
    (now : Nat) (sp : SpawnOutcome) :
    (start_spawn_phase st cfg serviceId now sp).2.1.services = st.services := by
  by_cases hv : programInvalid cfg.start
  · rw [start_spawn_phase_invalid st cfg serviceId now sp hv]
    rfl
  · cases sp with
    | ok handle pid =>
      rw [start_spawn_phase_ok st cfg serviceId now handle pid (by simpa using hv)]
      rfl
    | fail msg =>
      rw [start_spawn_phase_fail st cfg serviceId now msg (by simpa using hv)]
      rfl

theorem start_spawn_ok_child (st : MgrState) (cfg : ServiceConfig) (serviceId : String)
    (now : Nat) (handle : Nat) (pid : Option Nat) (hv : programInvalid cfg.start = false) :
    (alookup (start_spawn_phase st cfg serviceId now (.ok handle pid)).2.1.runtimes
        serviceId).map ServiceRuntime.child = some (some handle) := by
  rw [start_spawn_phase_ok st cfg serviceId now handle pid hv]
  simp [alookup_aentryUpdate_self]

theorem start_service_eq_some (st : MgrState) (serviceId : String) (cfg : ServiceConfig)
    (status : ServiceStatus) (w : TryWait) (now : Nat) (sp : SpawnOutcome)
    (hs : alookup st.services serviceId = some cfg)
    (hr : (refresh_status_if_needed st serviceId w now).1 = some status) :
    start_service st serviceId w now sp
      = if status.state = .running
          then (.ok status, (refresh_status_if_needed st serviceId w now).2, [])
          else start_spawn_phase (refresh_status_if_needed st serviceId w now).2 cfg
            serviceId now sp := by
  unfold start_service
  rw [get_service_some st serviceId cfg hs]
  rcases hp : refresh_status_if_needed st serviceId w now with ⟨r1, st1⟩
  rw [hp] at hr
  simp only [] at hr
  rw [hr]

theorem start_service_eq_none (st : MgrState) (serviceId : String) (cfg : ServiceConfig)
    (w : TryWait) (now : Nat) (sp : SpawnOutcome)
    (hs : alookup st.services serviceId = some cfg)
    (hr : (refresh_status_if_needed st serviceId w now).1 = none) :
    start_service st serviceId w now sp
      = start_spawn_phase (refresh_status_if_needed st serviceId w now).2 cfg
          serviceId now sp := by
  unfold start_service
  rw [get_service_some st serviceId cfg hs]
  rcases hp : refresh_status_if_needed st serviceId w now with ⟨r1, st1⟩
  rw [hp] at hr
  simp only [] at hr
  rw [hr]


theorem start_trace_spawn (st : MgrState) (serviceId : String) (cfg : ServiceConfig)
    (w1 : TryWait) (now1 : Nat) (sp1 : SpawnOutcome) (handle : Nat)
    (hs : alookup st.services serviceId = some cfg)
    (htr : (start_service st serviceId w1 now1 sp1).2.2 = [handle]) :
    ∃ pid, sp1 = .ok handle pid ∧ programInvalid cfg.start = false
      ∧ (start_service st serviceId w1 now1 sp1).2.1
          = (start_spawn_phase (refresh_status_if_needed st serviceId w1 now1).2 cfg
              serviceId now1 (.ok handle pid)).2.1 := by
  have hspawn : start_service st serviceId w1 now1 sp1
      = start_spawn_phase (refresh_status_if_needed st serviceId w1 now1).2 cfg
          serviceId now1 sp1 := by
    cases hr : (refresh_status_if_needed st serviceId w1 now1).1 with
    | some status =>
      by_cases hrun : status.state = ServiceState.running
      · exfalso
        rw [start_service_eq_some st serviceId cfg status w1 now1 sp1 hs hr,
          if_pos hrun] at htr
        simp at htr
      · rw [start_service_eq_some st serviceId cfg status w1 now1 sp1 hs hr, if_neg hrun]
    | none =>
      exact start_service_eq_none st serviceId cfg w1 now1 sp1 hs hr
  rw [hspawn] at htr
  by_cases hv : programInvalid cfg.start
  · exfalso
    rw [start_spawn_phase_invalid _ _ _ _ _ hv] at htr
    simp at htr
  · have hv' : programInvalid cfg.start = false := by simpa using hv
    cases sp1 with
    | fail msg =>
      exfalso
      rw [start_spawn_phase_fail _ _ _ _ _ hv'] at htr
      simp at htr
    | ok h1 pid =>
      have hh : h1 = handle := by
        rw [start_spawn_phase_ok _ _ _ _ _ _ hv'] at htr
        simpa using htr
      subst hh
      exact ⟨pid, rfl, hv', by rw [hspawn]⟩

/-- C1: when the reconciled tracked state is `Running`, `start_service`
returns that status unchanged and spawns nothing; and after any start call
that spawned a process, a second start (with the child still alive) spawns
nothing and the single tracked child handle is preserved — two starts without
an intervening stop never yield two live children. -/
theorem start_idempotent_when_running :
    (∀ (st : MgrState) (serviceId : String) (cfg : ServiceConfig) (status : ServiceStatus)
       (w : TryWait) (now : Nat) (sp : SpawnOutcome),
      alookup st.services serviceId = some cfg →
      (refresh_status_if_needed st serviceId w now).1 = some status →
      status.state = .running →
      start_service st serviceId w now sp
        = (.ok status, (refresh_status_if_needed st serviceId w now).2, []))
    ∧ (∀ (st : MgrState) (serviceId : String) (cfg : ServiceConfig) (w1 : TryWait)
       (now1 : Nat) (sp1 : SpawnOutcome) (handle : Nat) (now2 : Nat) (sp2 : SpawnOutcome),
      alookup st.services serviceId = some cfg →
      (start_service st serviceId w1 now1 sp1).2.2 = [handle] →
      (start_service (start_service st serviceId w1 now1 sp1).2.1 serviceId
          .stillRunning now2 sp2).2.2 = ([] : List Nat)
      ∧ (alookup (start_service (start_service st serviceId w1 now1 sp1).2.1 serviceId
            .stillRunning now2 sp2).2.1.runtimes serviceId).map ServiceRuntime.child
          = some (some handle)) := by
  constructor
  · intro st serviceId cfg status w now sp hs hr hrun
    rw [start_service_eq_some st serviceId cfg status w now sp hs hr, if_pos hrun]
  · intro st serviceId cfg w1 now1 sp1 handle now2 sp2 hs htr
    obtain ⟨pid, hsp1, hv', hpost⟩ :=
      start_trace_spawn st serviceId cfg w1 now1 sp1 handle hs htr
    have hchild : (alookup (start_service st serviceId w1 now1 sp1).2.1.runtimes
        serviceId).map ServiceRuntime.child = some (some handle) := by
      rw [hpost]
      exact start_spawn_ok_child _ cfg serviceId now1 handle pid hv'
    have hserv : (start_service st serviceId w1 now1 sp1).2.1.services = st.services := by
      rw [hpost, start_spawn_phase_services, refresh_services]
    obtain ⟨rt1, hrt1, hrt1c⟩ : ∃ rt1,
        alookup (start_service st serviceId w1 now1 sp1).2.1.runtimes serviceId = some rt1
        ∧ rt1.child = some handle := by
      cases hlk : alookup (start_service st serviceId w1 now1 sp1).2.1.runtimes serviceId with
      | none => rw [hlk] at hchild; simp at hchild
      | some rt1 =>
        rw [hlk] at hchild
        exact ⟨rt1, rfl, by injection hchild⟩
    have hs1 : alookup (start_service st serviceId w1 now1 sp1).2.1.services serviceId
        = some cfg := by rw [hserv]; exact hs
    have hrefresh2 := refresh_eq_child (start_service st serviceId w1 now1 sp1).2.1
      serviceId .stillRunning now2 rt1 handle hrt1 hrt1c
    have hr2 : (refresh_status_if_needed (start_service st serviceId w1 now1 sp1).2.1
        serviceId .stillRunning now2).1
        = some (refreshRuntime rt1 .stillRunning now2).status := by
      rw [hrefresh2]
    have hstate2 : (refreshRuntime rt1 .stillRunning now2).status.state = .running := by
      simp [refreshRuntime]
    have heq2 := start_service_eq_some (start_service st serviceId w1 now1 sp1).2.1
      serviceId cfg (refreshRuntime rt1 .stillRunning now2).status .stillRunning now2 sp2
      hs1 hr2
    rw [if_pos hstate2] at heq2
    rw [heq2]
    constructor
    · rfl
    · rw [hrefresh2]
      simp only []
      rw [alookup_aupdate_self, hrt1]
      simp [refreshRuntime, hrt1c]


theorem start_idempotent_when_running_witness :
    start_service stAfterStart "api" .stillRunning 5 (.ok 9 none)
      = (.ok runningApi, (refresh_status_if_needed stAfterStart "api" .stillRunning 5).2, [])
    ∧ (start_service stAfterStart "api" .stillRunning 1 (.ok 8 (some 43))).2.2 = ([] : List Nat)
    ∧ (alookup (start_service stAfterStart "api" .stillRunning 1
        (.ok 8 (some 43))).2.1.runtimes "api").map ServiceRuntime.child = some (some 7) := by
  have hB := start_idempotent_when_running.2 sampleState "api" sampleCfg .stillRunning 0
    (.ok 7 (some 42)) 7 1 (.ok 8 (some 43)) (by decide) (by decide)
  exact ⟨start_idempotent_when_running.1 stAfterStart "api" sampleCfg runningApi .stillRunning 5
    (.ok 9 none) (by decide) (by decide) (by decide), hB.1, hB.2⟩


/-- C2 counterexample: the pre-attempt tracked state of `"bad"` is `Stopped`;
after a failed spawn the call returns the error but the tracked state is
`Starting` (set before the spawn attempt), not the pre-attempt state. -/
theorem start_failure_state_changed_cex :
    (alookup stC2.runtimes "bad").map (fun rt => rt.status.state) = some .stopped
    ∧ (start_service stC2 "bad" .stillRunning 0 (.fail "boom")).1
        = .error ("failed to spawn service " ++ "Bad" ++ ": " ++ "boom")
    ∧ (alookup (start_service stC2 "bad" .stillRunning 0 (.fail "boom")).2.1.runtimes
        "bad").map (fun rt => rt.status.state) = some .starting
    ∧ ServiceState.starting ≠ ServiceState.stopped := by decide

/-- C2 (amended): if `start_service` fails — spawn failure or invalid
command — the call returns the error and spawns no process, and the tracked
lifecycle state after the call is `Starting` (set before the attempt), not
the pre-attempt state and not `Running`; the tracked child handle is left
exactly as the query-time reconciliation left it (no new handle is
recorded); and when the reconciliation left no handle and the command is
valid, the service remains startable: a subsequent start with a successful
spawn returns `Running`. -/
theorem start_failure_leaves_starting (st : MgrState) (serviceId : String)
    (cfg : ServiceConfig) (status : ServiceStatus) (w : TryWait) (now : Nat)
    (hs : alookup st.services serviceId = some cfg)
    (hr : (refresh_status_if_needed st serviceId w now).1 = some status)
    (hrun : status.state ≠ .running) :
    (∀ sp : SpawnOutcome, programInvalid cfg.start = true →
        (start_service st serviceId w now sp).1 = .error "command program cannot be empty")
    ∧ (∀ msg : String, programInvalid cfg.start = false →
        (start_service st serviceId w now (.fail msg)).1
          = .error ("failed to spawn service " ++ cfg.name ++ ": " ++ msg))
    ∧ (∀ sp : SpawnOutcome,
        programInvalid cfg.start = true ∨ (∃ msg, sp = .fail msg) →
        (start_service st serviceId w now sp).2.2 = ([] : List Nat)
        ∧ (alookup (start_service st serviceId w now sp).2.1.runtimes serviceId).map
            (fun rt => rt.status.state) = some .starting
        ∧ (alookup (start_service st serviceId w now sp).2.1.runtimes serviceId).map
            ServiceRuntime.child
          = (alookup (refresh_status_if_needed st serviceId w now).2.runtimes
              serviceId).map ServiceRuntime.child)
    ∧ (∀ sp : SpawnOutcome,
        programInvalid cfg.start = true ∨ (∃ msg, sp = .fail msg) →
        (alookup (refresh_status_if_needed st serviceId w now).2.runtimes serviceId).map
            ServiceRuntime.child = some none →
        programInvalid cfg.start = false →
        ∀ (now2 : Nat) (handle : Nat) (pid : Option Nat),
          (start_service (start_service st serviceId w now sp).2.1 serviceId
              .stillRunning now2 (.ok handle pid)).1 = .ok (runningStatus serviceId pid)) := by
  have hspawn : ∀ sp : SpawnOutcome, start_service st serviceId w now sp
      = start_spawn_phase (refresh_status_if_needed st serviceId w now).2 cfg
          serviceId now sp := fun sp => by
    rw [start_service_eq_some st serviceId cfg status w now sp hs hr, if_neg hrun]
  obtain ⟨rtr, hrtr, hrtrs⟩ := refresh_lookup st serviceId w now status hr
  have hmark := mark_status_lookup (refresh_status_if_needed st serviceId w now).2
    (startingStatus serviceId)
  have hsid : (startingStatus serviceId).serviceId = serviceId := rfl
  rw [hsid, hrtr] at hmark
  have happly : applyStatus (startingStatus serviceId)
      ((some rtr).getD (ServiceRuntime.new serviceId))
      = { rtr with startedAt := none, status := startingStatus serviceId } := by
    simp [applyStatus, startingStatus]
  rw [happly] at hmark
  have hfailEq : ∀ sp : SpawnOutcome,
      programInvalid cfg.start = true ∨ (∃ msg, sp = .fail msg) →
      ∃ e, start_service st serviceId w now sp
        = (.error e, mark_status (refresh_status_if_needed st serviceId w now).2
            (startingStatus serviceId), []) := by
    intro sp hfail
    rcases hfail with hv | ⟨msg, rfl⟩
    · exact ⟨"command program cannot be empty",
        by rw [hspawn sp, start_spawn_phase_invalid _ _ _ _ _ hv]⟩
    · by_cases hv : programInvalid cfg.start
      · exact ⟨"command program cannot be empty",
          by rw [hspawn _, start_spawn_phase_invalid _ _ _ _ _ hv]⟩
      · exact ⟨"failed to spawn service " ++ cfg.name ++ ": " ++ msg,
          by rw [hspawn _, start_spawn_phase_fail _ _ _ _ _ (by simpa using hv)]⟩
  refine ⟨?_, ?_, ?_, ?_⟩
  · intro sp hv
    rw [hspawn sp, start_spawn_phase_invalid _ _ _ _ _ hv]
  · intro msg hv
    rw [hspawn _, start_spawn_phase_fail _ _ _ _ _ hv]
  · intro sp hfail
    obtain ⟨e, heq⟩ := hfailEq sp hfail
    refine ⟨by rw [heq], ?_, ?_⟩
    · rw [heq]
      simp only []
      rw [hmark]
      rfl
    · rw [heq]
      simp only []
      rw [hmark, hrtr]
      rfl
  · intro sp hfail hchild hv now2 handle pid
    obtain ⟨e, heq⟩ := hfailEq sp hfail
    have hrtrc : rtr.child = none := by
      rw [hrtr] at hchild
      injection hchild
    have hs2 : alookup (start_service st serviceId w now sp).2.1.services serviceId
        = some cfg := by
      rw [heq]
      simp only [mark_status_services]
      rw [refresh_services]
      exact hs
    have hrt2 : alookup (start_service st serviceId w now sp).2.1.runtimes serviceId
        = some { rtr with startedAt := none, status := startingStatus serviceId } := by
      rw [heq]
      exact hmark
    have hrefresh2 := refresh_eq_nochild (start_service st serviceId w now sp).2.1
      serviceId .stillRunning now2
      { rtr with startedAt := none, status := startingStatus serviceId } hrt2 hrtrc
    have hr2 : (refresh_status_if_needed (start_service st serviceId w now sp).2.1
        serviceId .stillRunning now2).1 = some (startingStatus serviceId) := by
      rw [hrefresh2]
    have heq2 := start_service_eq_some (start_service st serviceId w now sp).2.1
      serviceId cfg (startingStatus serviceId) .stillRunning now2 (.ok handle pid) hs2 hr2
    have hnr2 : (startingStatus serviceId).state ≠ ServiceState.running := by
      simp [startingStatus]
    rw [if_neg hnr2, start_spawn_phase_ok _ _ _ _ _ _ hv] at heq2
    rw [heq2]

theorem start_failure_leaves_starting_witness :
    (start_service stInvalid "blank" .stillRunning 0 (.ok 9 none)).1
        = .error "command program cannot be empty"
    ∧ (start_service stC2 "bad" .stillRunning 0 (.fail "boom")).1
        = .error ("failed to spawn service " ++ "Bad" ++ ": " ++ "boom")
    ∧ (start_service stC2 "bad" .stillRunning 0 (.fail "boom")).2.2 = ([] : List Nat)
    ∧ (alookup (start_service stC2 "bad" .stillRunning 0 (.fail "boom")).2.1.runtimes
        "bad").map (fun rt => rt.status.state) = some .starting
    ∧ (alookup (start_service stC2 "bad" .stillRunning 0 (.fail "boom")).2.1.runtimes
        "bad").map ServiceRuntime.child
      = (alookup (refresh_status_if_needed stC2 "bad" .stillRunning 0).2.runtimes
          "bad").map ServiceRuntime.child
    ∧ (start_service (start_service stC2 "bad" .stillRunning 0 (.fail "boom")).2.1 "bad"
        .stillRunning 1 (.ok 7 (some 42))).1 = .ok (runningStatus "bad" (some 42)) := by
  have hB := start_failure_leaves_starting stC2 "bad" badCfg (ServiceStatus.stopped "bad")
    .stillRunning 0 (by decide) (by decide) (by decide)
  have hI := start_failure_leaves_starting stInvalid "blank" blankCfg
    (ServiceStatus.stopped "blank") .stillRunning 0 (by decide) (by decide) (by decide)
  have hcommon := hB.2.2.1 (.fail "boom") (Or.inr ⟨"boom", rfl⟩)
  exact ⟨hI.1 (.ok 9 none) (by decide),
         hB.2.1 "boom" (by decide),
         hcommon.1, hcommon.2.1, hcommon.2.2,
         hB.2.2.2 (.fail "boom") (Or.inr ⟨"boom", rfl⟩) (by decide) (by decide) 1 7 (some 42)⟩

end ControlRoom
